import Mathlib

/-!
A shallow embedding of the mesh-layout core of `src/include/cinder/gl/Vbo.h`
(class `VboMesh`: the `Layout` descriptor, the layout resolver, the `VertexIter`
cursor over the mapped dynamic region, and the `Vbo` exception hierarchy),
together with theorems settling the claims of the specification about it.

Machine integers are modelled as `Nat` with explicit `% 2^w` where overflow
matters (the cursor member `mStride` is declared `uint8_t` in the header, so
its value is the assigned stride reduced `% 256`).  Array accesses that the
C++ performs on the fixed-size `mAttributes` array are embedded as
`Option`-returning reads/writes so that out-of-bounds accesses are observable.
-/

namespace VboMesh

/-- Presence state `NONE` of an attribute slot (enum value 0 in the header, line 146). -/
def NONE : Nat := 0

/-- Presence state `STATIC` of an attribute slot (enum value 1 in the header, line 146). -/
def STATIC : Nat := 1

/-- Presence state `DYNAMIC` of an attribute slot (enum value 2 in the header, line 146). -/
def DYNAMIC : Nat := 2

/-- Index of the indices slot in `mAttributes` (header line 147). -/
def ATTR_INDICES : Nat := 0

/-- Index of the positions slot in `mAttributes` (header line 147). -/
def ATTR_POSITIONS : Nat := 1

/-- Index of the normals slot in `mAttributes` (header line 147). -/
def ATTR_NORMALS : Nat := 2

/-- Index of the RGB colors slot in `mAttributes` (header line 147). -/
def ATTR_COLORS_RGB : Nat := 3

/-- Index of the RGBA colors slot in `mAttributes` (header line 147). -/
def ATTR_COLORS_RGBA : Nat := 4

/-- Index of the 2d texcoord slot of texture unit 0 (header line 147); unit `u` lives at index `ATTR_TEXCOORDS2D_0 + u`. -/
def ATTR_TEXCOORDS2D_0 : Nat := 5

/-- Index of the 3d texcoord slot of texture unit 0 (header line 147); unit `u` lives at index `ATTR_TEXCOORDS3D_0 + u`. -/
def ATTR_TEXCOORDS3D_0 : Nat := 9

/-- Number of fixed attribute slots, `ATTR_TOTAL` (header line 147): 5 fixed + 4 units of 2d + 4 units of 3d = 13. -/
def ATTR_TOTAL : Nat := 13

/-- Largest legal texture unit, `ATTR_MAX_TEXTURE_UNIT = 3` (header line 148). -/
def ATTR_MAX_TEXTURE_UNIT : Nat := 3

/-- The scalar types of custom attributes, `Layout::CustomAttr` (header line 240). -/
inductive CustomAttr where
  | CUSTOM_ATTR_FLOAT
  | CUSTOM_ATTR_FLOAT2
  | CUSTOM_ATTR_FLOAT3
  | CUSTOM_ATTR_FLOAT4
deriving DecidableEq, Repr

/-- Modelled from the spec: `Layout::sCustomAttrSizes` is declared in the header
(line 241) but initialized in Vbo.cpp, which is absent from src/; the spec fixes
the sizes as float = 4, vec2 = 8, vec3 = 12, vec4 = 16 bytes, tightly packed. -/
def sCustomAttrSizes : CustomAttr → Nat
  | .CUSTOM_ATTR_FLOAT => 4
  | .CUSTOM_ATTR_FLOAT2 => 8
  | .CUSTOM_ATTR_FLOAT3 => 12
  | .CUSTOM_ATTR_FLOAT4 => 16

/-- `VboMesh::Layout` (header lines 151-259): a fixed array of `ATTR_TOTAL` slot
states (each `NONE`, `STATIC` or `DYNAMIC`) plus the ordered custom attribute
lists `mCustomDynamic` and `mCustomStatic` (pairs of type and offset). The C++
member `int mAttributes[ATTR_TOTAL]` is embedded as a `List Nat`; the default
constructor produces a list of length `ATTR_TOTAL`. -/
structure Layout where
  mAttributes : List Nat
  mCustomDynamic : List (CustomAttr × Nat)
  mCustomStatic : List (CustomAttr × Nat)
deriving DecidableEq, Repr

/-- The default `Layout` constructor: `initAttributes` (header lines 152, 258)
sets every slot to `NONE`; both custom lists start empty. -/
def Layout.init : Layout :=
  { mAttributes := List.replicate ATTR_TOTAL NONE
    mCustomDynamic := []
    mCustomStatic := [] }

/-- Bounds-checked read `mAttributes[i]`: the embedding of the C++ array read,
returning `none` on an out-of-bounds index. -/
def Layout.attrGet (l : Layout) (i : Nat) : Option Nat := l.mAttributes[i]?

/-- Bounds-checked write `mAttributes[i] = v`: the embedding of the C++ array
write, returning `none` on an out-of-bounds index. -/
def Layout.attrSet (l : Layout) (i v : Nat) : Option Layout :=
  if i < l.mAttributes.length then
    some { l with mAttributes := l.mAttributes.set i v }
  else
    none

/-- `Layout::isDefaults` (header line 155): scans slots `0 .. ATTR_TOTAL - 1`
and reports whether every one is `NONE`; the custom lists are not examined. -/
def Layout.isDefaults (l : Layout) : Bool :=
  (List.range ATTR_TOTAL).all fun a => l.mAttributes.getD a NONE == NONE

/-- `Layout::setStaticNormals` (header line 164). -/
def Layout.setStaticNormals (l : Layout) : Option Layout := l.attrSet ATTR_NORMALS STATIC

/-- `Layout::setDynamicNormals` (header line 166). -/
def Layout.setDynamicNormals (l : Layout) : Option Layout := l.attrSet ATTR_NORMALS DYNAMIC

/-- `Layout::setStaticColorsRGB` (header line 175): sets the RGB slot to `STATIC` and clears the RGBA slot to `NONE`. -/
def Layout.setStaticColorsRGB (l : Layout) : Option Layout :=
  (l.attrSet ATTR_COLORS_RGB STATIC).bind fun l2 => l2.attrSet ATTR_COLORS_RGBA NONE

/-- `Layout::setDynamicColorsRGB` (header line 177): sets the RGB slot to `DYNAMIC` and clears the RGBA slot to `NONE`. -/
def Layout.setDynamicColorsRGB (l : Layout) : Option Layout :=
  (l.attrSet ATTR_COLORS_RGB DYNAMIC).bind fun l2 => l2.attrSet ATTR_COLORS_RGBA NONE

/-- `Layout::setStaticColorsRGBA` (header line 186): sets the RGBA slot to `STATIC` and clears the RGB slot to `NONE`. -/
def Layout.setStaticColorsRGBA (l : Layout) : Option Layout :=
  (l.attrSet ATTR_COLORS_RGBA STATIC).bind fun l2 => l2.attrSet ATTR_COLORS_RGB NONE

/-- `Layout::setDynamicColorsRGBA` (header line 188): sets the RGBA slot to `DYNAMIC` and clears the RGB slot to `NONE`. -/
def Layout.setDynamicColorsRGBA (l : Layout) : Option Layout :=
  (l.attrSet ATTR_COLORS_RGBA DYNAMIC).bind fun l2 => l2.attrSet ATTR_COLORS_RGB NONE

/-- `Layout::hasStaticTexCoords2d(unit)` (header line 193): reads slot `ATTR_TEXCOORDS2D_0 + unit`. -/
def Layout.hasStaticTexCoords2d (l : Layout) (unit : Nat) : Option Bool :=
  (l.attrGet (ATTR_TEXCOORDS2D_0 + unit)).map fun v => v == STATIC

/-- `Layout::hasDynamicTexCoords2d(unit)` (header line 195): reads slot `ATTR_TEXCOORDS2D_0 + unit`. -/
def Layout.hasDynamicTexCoords2d (l : Layout) (unit : Nat) : Option Bool :=
  (l.attrGet (ATTR_TEXCOORDS2D_0 + unit)).map fun v => v == DYNAMIC

/-- `Layout::hasTexCoords2d(unit)` (header line 191): `hasDynamicTexCoords2d(unit) || hasStaticTexCoords2d(unit)` with C++ short-circuit evaluation. -/
def Layout.hasTexCoords2d (l : Layout) (unit : Nat) : Option Bool :=
  (l.hasDynamicTexCoords2d unit).bind fun d =>
    if d then some true else l.hasStaticTexCoords2d unit

/-- `Layout::hasStaticTexCoords3d(unit)` (header line 210): reads slot `ATTR_TEXCOORDS3D_0 + unit`. -/
def Layout.hasStaticTexCoords3d (l : Layout) (unit : Nat) : Option Bool :=
  (l.attrGet (ATTR_TEXCOORDS3D_0 + unit)).map fun v => v == STATIC

/-- `Layout::hasDynamicTexCoords3d(unit)` (header line 212): reads slot `ATTR_TEXCOORDS3D_0 + unit`. -/
def Layout.hasDynamicTexCoords3d (l : Layout) (unit : Nat) : Option Bool :=
  (l.attrGet (ATTR_TEXCOORDS3D_0 + unit)).map fun v => v == DYNAMIC

/-- `Layout::hasTexCoords3d(unit)` (header line 208): `hasDynamicTexCoords3d(unit) || hasStaticTexCoords3d(unit)` with C++ short-circuit evaluation. -/
def Layout.hasTexCoords3d (l : Layout) (unit : Nat) : Option Bool :=
  (l.hasDynamicTexCoords3d unit).bind fun d =>
    if d then some true else l.hasStaticTexCoords3d unit

/-- `Layout::hasTexCoords(unit)` (header line 205): `(mAttributes[ATTR_TEXCOORDS2D_0 + unit] != NONE) || (mAttributes[ATTR_TEXCOORDS3D_0 + unit] != NONE)` with C++ short-circuit evaluation. -/
def Layout.hasTexCoords (l : Layout) (unit : Nat) : Option Bool :=
  (l.attrGet (ATTR_TEXCOORDS2D_0 + unit)).bind fun a =>
    if a != NONE then some true
    else (l.attrGet (ATTR_TEXCOORDS3D_0 + unit)).map fun b => b != NONE

/-- `Layout::setStaticTexCoords2d(unit)` (header line 197): sets slot `ATTR_TEXCOORDS2D_0 + unit` to `STATIC` and clears slot `ATTR_TEXCOORDS3D_0 + unit` to `NONE`. -/
def Layout.setStaticTexCoords2d (l : Layout) (unit : Nat) : Option Layout :=
  (l.attrSet (ATTR_TEXCOORDS2D_0 + unit) STATIC).bind fun l2 =>
    l2.attrSet (ATTR_TEXCOORDS3D_0 + unit) NONE

/-- `Layout::setDynamicTexCoords2d(unit)` (header line 199): sets slot `ATTR_TEXCOORDS2D_0 + unit` to `DYNAMIC` and clears slot `ATTR_TEXCOORDS3D_0 + unit` to `NONE`. -/
def Layout.setDynamicTexCoords2d (l : Layout) (unit : Nat) : Option Layout :=
  (l.attrSet (ATTR_TEXCOORDS2D_0 + unit) DYNAMIC).bind fun l2 =>
    l2.attrSet (ATTR_TEXCOORDS3D_0 + unit) NONE

/-- `Layout::setStaticTexCoords3d(unit)` (header line 214): sets slot `ATTR_TEXCOORDS3D_0 + unit` to `STATIC` and clears slot `ATTR_TEXCOORDS2D_0 + unit` to `NONE`. -/
def Layout.setStaticTexCoords3d (l : Layout) (unit : Nat) : Option Layout :=
  (l.attrSet (ATTR_TEXCOORDS3D_0 + unit) STATIC).bind fun l2 =>
    l2.attrSet (ATTR_TEXCOORDS2D_0 + unit) NONE

/-- `Layout::setDynamicTexCoords3d(unit)` (header line 216): sets slot `ATTR_TEXCOORDS3D_0 + unit` to `DYNAMIC` and clears slot `ATTR_TEXCOORDS2D_0 + unit` to `NONE`. -/
def Layout.setDynamicTexCoords3d (l : Layout) (unit : Nat) : Option Layout :=
  (l.attrSet (ATTR_TEXCOORDS3D_0 + unit) DYNAMIC).bind fun l2 =>
    l2.attrSet (ATTR_TEXCOORDS2D_0 + unit) NONE

/-- `Layout::setStaticIndices` (header line 225). -/
def Layout.setStaticIndices (l : Layout) : Option Layout := l.attrSet ATTR_INDICES STATIC

/-- `Layout::setDynamicIndices` (header line 227). -/
def Layout.setDynamicIndices (l : Layout) : Option Layout := l.attrSet ATTR_INDICES DYNAMIC

/-- `Layout::setStaticPositions` (header line 236). -/
def Layout.setStaticPositions (l : Layout) : Option Layout := l.attrSet ATTR_POSITIONS STATIC

/-- `Layout::setDynamicPositions` (header line 238). -/
def Layout.setDynamicPositions (l : Layout) : Option Layout := l.attrSet ATTR_POSITIONS DYNAMIC

/-- `Layout::addDynamicCustomFloat` (header line 246): `mCustomDynamic.push_back(make_pair(CUSTOM_ATTR_FLOAT, 0))`. -/
def Layout.addDynamicCustomFloat (l : Layout) : Layout :=
  { l with mCustomDynamic := l.mCustomDynamic ++ [(CustomAttr.CUSTOM_ATTR_FLOAT, 0)] }

/-- `Layout::addDynamicCustomVec2f` (header line 248): `mCustomDynamic.push_back(make_pair(CUSTOM_ATTR_FLOAT2, 0))`. -/
def Layout.addDynamicCustomVec2f (l : Layout) : Layout :=
  { l with mCustomDynamic := l.mCustomDynamic ++ [(CustomAttr.CUSTOM_ATTR_FLOAT2, 0)] }

/-- `Layout::addDynamicCustomVec3f` (header line 250): `mCustomDynamic.push_back(make_pair(CUSTOM_ATTR_FLOAT3, 0))`. -/
def Layout.addDynamicCustomVec3f (l : Layout) : Layout :=
  { l with mCustomDynamic := l.mCustomDynamic ++ [(CustomAttr.CUSTOM_ATTR_FLOAT3, 0)] }

/-- `Layout::addDynamicCustomVec4f` (header line 252): `mCustomDynamic.push_back(make_pair(CUSTOM_ATTR_FLOAT4, 0))`. -/
def Layout.addDynamicCustomVec4f (l : Layout) : Layout :=
  { l with mCustomDynamic := l.mCustomDynamic ++ [(CustomAttr.CUSTOM_ATTR_FLOAT4, 0)] }

/-- Enumeration of every mutating operation the `Layout` descriptor exposes in
the header (lines 164-252), with texture unit arguments made explicit. -/
inductive LayoutOp where
  | staticNormals
  | dynamicNormals
  | staticColorsRGB
  | dynamicColorsRGB
  | staticColorsRGBA
  | dynamicColorsRGBA
  | staticTexCoords2d (u : Nat)
  | dynamicTexCoords2d (u : Nat)
  | staticTexCoords3d (u : Nat)
  | dynamicTexCoords3d (u : Nat)
  | staticIndices
  | dynamicIndices
  | staticPositions
  | dynamicPositions
  | dynCustomFloat
  | dynCustomVec2f
  | dynCustomVec3f
  | dynCustomVec4f
deriving DecidableEq, Repr

/-- Applies a `LayoutOp` to a descriptor by dispatching to the corresponding
member function of the embedding. -/
def applyOp : LayoutOp → Layout → Option Layout
  | .staticNormals, l => l.setStaticNormals
  | .dynamicNormals, l => l.setDynamicNormals
  | .staticColorsRGB, l => l.setStaticColorsRGB
  | .dynamicColorsRGB, l => l.setDynamicColorsRGB
  | .staticColorsRGBA, l => l.setStaticColorsRGBA
  | .dynamicColorsRGBA, l => l.setDynamicColorsRGBA
  | .staticTexCoords2d u, l => l.setStaticTexCoords2d u
  | .dynamicTexCoords2d u, l => l.setDynamicTexCoords2d u
  | .staticTexCoords3d u, l => l.setStaticTexCoords3d u
  | .dynamicTexCoords3d u, l => l.setDynamicTexCoords3d u
  | .staticIndices, l => l.setStaticIndices
  | .dynamicIndices, l => l.setDynamicIndices
  | .staticPositions, l => l.setStaticPositions
  | .dynamicPositions, l => l.setDynamicPositions
  | .dynCustomFloat, l => some l.addDynamicCustomFloat
  | .dynCustomVec2f, l => some l.addDynamicCustomVec2f
  | .dynCustomVec3f, l => some l.addDynamicCustomVec3f
  | .dynCustomVec4f, l => some l.addDynamicCustomVec4f

/-- Labels for the attributes that can occupy the interleaved dynamic vertex
record, used to tie resolved offsets back to the attribute they belong to. -/
inductive DynAttr where
  | positions
  | normals
  | colorsRGB
  | colorsRGBA
  | texCoord2d (u : Nat)
  | texCoord3d (u : Nat)
  | custom (i : Nat)
deriving DecidableEq, Repr

/-- Reads slot `i` of the attribute array with the in-bounds semantics of the
fixed-size C++ array (all resolver reads use literal indices below `ATTR_TOTAL`). -/
def Layout.attrIs (l : Layout) (i v : Nat) : Bool := l.mAttributes.getD i NONE == v

/-- Modelled from the spec: the fixed dynamic attributes present in a `Layout`,
listed with their byte sizes in the slot order the resolver uses (positions,
normals, colorsRGB, colorsRGBA, then per texture unit 0..3 its 2d or 3d
texcoords).  `VboMesh::initializeBuffers` is declared in the header (line 436)
but defined in Vbo.cpp, which is absent from src/.  Sizes per the spec:
position/normal = vec3 = 12, colorRGB = vec3 = 12, colorRGBA = vec4 = 16,
texcoord2d = vec2 = 8, texcoord3d = vec3 = 12.  The index slot occupies its own
buffer and contributes nothing to the vertex record. -/
def dynFixedAttrs (l : Layout) : List (DynAttr × Nat) :=
  (if l.attrIs ATTR_POSITIONS DYNAMIC then [(DynAttr.positions, 12)] else []) ++
  (if l.attrIs ATTR_NORMALS DYNAMIC then [(DynAttr.normals, 12)] else []) ++
  (if l.attrIs ATTR_COLORS_RGB DYNAMIC then [(DynAttr.colorsRGB, 12)] else []) ++
  (if l.attrIs ATTR_COLORS_RGBA DYNAMIC then [(DynAttr.colorsRGBA, 16)] else []) ++
  (List.range (ATTR_MAX_TEXTURE_UNIT + 1)).flatMap fun u =>
    (if l.attrIs (ATTR_TEXCOORDS2D_0 + u) DYNAMIC then [(DynAttr.texCoord2d u, 8)] else []) ++
    (if l.attrIs (ATTR_TEXCOORDS3D_0 + u) DYNAMIC then [(DynAttr.texCoord3d u, 12)] else [])

/-- Modelled from the spec: the dynamic custom attributes of a `Layout` with
their byte sizes, in declaration order, appended after all fixed slots. -/
def dynCustomAttrs (l : Layout) : List (DynAttr × Nat) :=
  l.mCustomDynamic.enum.map fun p => (DynAttr.custom p.1, sCustomAttrSizes p.2.1)

/-- Modelled from the spec: all attributes of the interleaved dynamic vertex
record with their sizes, fixed slots first, custom attributes after. -/
def dynAttrs (l : Layout) : List (DynAttr × Nat) :=
  dynFixedAttrs l ++ dynCustomAttrs l

/-- Modelled from the spec: the resolved dynamic stride is the exact sum of the
sizes of all present dynamic attributes, with no padding. -/
def dynamicStride (l : Layout) : Nat := ((dynAttrs l).map Prod.snd).sum

/-- Cumulative packed offsets for a list of attribute sizes: entry `i` is the
sum of the sizes of the attributes placed before position `i`. -/
def offsetsOf (sizes : List Nat) : List Nat :=
  (List.range sizes.length).map fun i => ((sizes.take i).sum)

/-- Modelled from the spec: the resolved dynamic region, pairing each dynamic
attribute with its byte offset inside one interleaved vertex record. -/
def resolveDyn (l : Layout) : List (DynAttr × Nat) :=
  ((dynAttrs l).map Prod.fst).zip (offsetsOf ((dynAttrs l).map Prod.snd))

/-- Modelled from the spec: the resolved byte offset of one dynamic attribute
(0 when the attribute is not part of the dynamic record). -/
def dynOffset (l : Layout) (a : DynAttr) : Nat := ((resolveDyn l).lookup a).getD 0

/-- Modelled from the spec: the resolved offsets of the dynamic custom
attributes, in declaration order. -/
def customOffsets (l : Layout) : List Nat :=
  (List.range l.mCustomDynamic.length).map fun i => dynOffset l (DynAttr.custom i)

/-- Modelled from the spec: total static attribute size per vertex recorded in
`mStaticStride` (the static region itself is stored planar). -/
def staticStride (l : Layout) : Nat :=
  (if l.attrIs ATTR_POSITIONS STATIC then 12 else 0) +
  (if l.attrIs ATTR_NORMALS STATIC then 12 else 0) +
  (if l.attrIs ATTR_COLORS_RGB STATIC then 12 else 0) +
  (if l.attrIs ATTR_COLORS_RGBA STATIC then 16 else 0) +
  ((List.range (ATTR_MAX_TEXTURE_UNIT + 1)).map fun u =>
    (if l.attrIs (ATTR_TEXCOORDS2D_0 + u) STATIC then 8 else 0) +
    (if l.attrIs (ATTR_TEXCOORDS3D_0 + u) STATIC then 12 else 0)).sum +
  (l.mCustomStatic.map fun p => sCustomAttrSizes p.1).sum

/-- The state block `VboMesh::Obj` (header lines 265-278), restricted to the
fields the layout and cursor claims depend on; the `Vbo` buffer handles and GL
locations are external resources and are not modelled. -/
structure MeshObj where
  mNumIndices : Nat
  mNumVertices : Nat
  mPositionOffset : Nat
  mNormalOffset : Nat
  mColorRGBOffset : Nat
  mColorRGBAOffset : Nat
  mTexCoordOffset : List Nat
  mStaticStride : Nat
  mDynamicStride : Nat
  mLayout : Layout
deriving DecidableEq, Repr

/-- Modelled from the spec: the `VboMesh` constructor taking explicit counts and
a `Layout` (header line 290) runs the layout resolver (`initializeBuffers`,
defined in Vbo.cpp, absent from src/) and stores the resolved dynamic offsets
and strides in the shared `Obj`. Offsets of attributes absent from the dynamic
record resolve to 0 and are unused. -/
def mkMeshObj (numVertices numIndices : Nat) (l : Layout) : MeshObj :=
  { mNumIndices := numIndices
    mNumVertices := numVertices
    mPositionOffset := dynOffset l DynAttr.positions
    mNormalOffset := dynOffset l DynAttr.normals
    mColorRGBOffset := dynOffset l DynAttr.colorsRGB
    mColorRGBAOffset := dynOffset l DynAttr.colorsRGBA
    mTexCoordOffset := (List.range (ATTR_MAX_TEXTURE_UNIT + 1)).map fun u =>
      if l.attrIs (ATTR_TEXCOORDS2D_0 + u) DYNAMIC then dynOffset l (DynAttr.texCoord2d u)
      else dynOffset l (DynAttr.texCoord3d u)
    mStaticStride := staticStride l
    mDynamicStride := dynamicStride l
    mLayout := l }

/-- Byte-addressed memory: the mapped dynamic region is a function from
addresses to byte values. -/
def Mem : Type := Nat → Nat

/-- Writes the byte list `v` into memory starting at address `addr`; all other
addresses are unchanged. -/
def writeBytes (mem : Mem) (addr : Nat) (v : List Nat) : Mem :=
  fun i => if addr ≤ i ∧ i - addr < v.length then v.getD (i - addr) 0 else mem i

/-- Reads `len` raw bytes from memory starting at address `addr`. -/
def readBytes (mem : Mem) (addr len : Nat) : List Nat :=
  (List.range len).map fun i => mem (addr + i)

/-- The value state of `VboMesh::VertexIter` (header lines 359-433): the
current pointer `mPtr`, the cached mapped bounds `mData`/`mDataEnd`, the cached
per-attribute offsets, the custom offsets held by the shared `Obj`, and the
cached stride.  The member `uint8_t mStride` (header line 432) is 8 bits wide,
so any value stored in it is reduced `% 256`; the invariant `mStride < 256`
holds for every state built by `VertexIter.fresh` and is preserved by `inc`. -/
structure VertexIterState where
  mPtr : Nat
  mData : Nat
  mDataEnd : Nat
  mPositionOffset : Nat
  mNormalOffset : Nat
  mColorRGBOffset : Nat
  mColorRGBAOffset : Nat
  mTexCoordOffset : List Nat
  mCustomOffsets : List Nat
  mStride : Nat
deriving DecidableEq, Repr

/-- Modelled from the spec: `VertexIter::VertexIter(mesh)` and
`VertexIter::Obj::Obj(mesh)` are defined in Vbo.cpp, absent from src/.  Per the
spec the constructor maps the dynamic buffer of the mesh (the mapped base address is
`base`), captures the bounds of the dynamic region (`mNumVertices` records of
`mDynamicStride` bytes), copies the resolved per-attribute offsets from the
mesh, derives the custom attribute offsets, and starts at vertex 0
(`mPtr = mData`).  Storing the `size_t` dynamic stride of the mesh into the
`uint8_t mStride` member declared at header line 432 truncates it `% 256`. -/
def VertexIter.fresh (mesh : MeshObj) (base : Nat) : VertexIterState :=
  { mPtr := base
    mData := base
    mDataEnd := base + mesh.mNumVertices * mesh.mDynamicStride
    mPositionOffset := mesh.mPositionOffset
    mNormalOffset := mesh.mNormalOffset
    mColorRGBOffset := mesh.mColorRGBOffset
    mColorRGBAOffset := mesh.mColorRGBAOffset
    mTexCoordOffset := mesh.mTexCoordOffset
    mCustomOffsets := customOffsets mesh.mLayout
    mStride := mesh.mDynamicStride % 256 }

/-- `VertexIter::operator++` (header line 396): `mPtr += mStride`. -/
def VertexIter.inc (it : VertexIterState) : VertexIterState :=
  { it with mPtr := it.mPtr + it.mStride }

/-- `VertexIter::isDone` (header line 398): `return mPtr < mDataEnd;`. -/
def VertexIter.isDone (it : VertexIterState) : Bool := it.mPtr < it.mDataEnd

/-- `VertexIter::getIndex` (header line 401): `return (mPtr - mData) / mStride;`. -/
def VertexIter.getIndex (it : VertexIterState) : Nat := (it.mPtr - it.mData) / it.mStride

/-- `VertexIter::getStride` (header line 403). -/
def VertexIter.getStride (it : VertexIterState) : Nat := it.mStride

/-- `VertexIter::setPosition` (header line 365): writes the bytes of the value at `mPtr + mPositionOffset`. -/
def VertexIter.setPosition (it : VertexIterState) (mem : Mem) (v : List Nat) : Mem :=
  writeBytes mem (it.mPtr + it.mPositionOffset) v

/-- `VertexIter::setNormal` (header line 369): writes the bytes of the value at `mPtr + mNormalOffset`. -/
def VertexIter.setNormal (it : VertexIterState) (mem : Mem) (v : List Nat) : Mem :=
  writeBytes mem (it.mPtr + it.mNormalOffset) v

/-- `VertexIter::setColorRGB` (header line 371): writes the bytes of the value at `mPtr + mColorRGBOffset`. -/
def VertexIter.setColorRGB (it : VertexIterState) (mem : Mem) (v : List Nat) : Mem :=
  writeBytes mem (it.mPtr + it.mColorRGBOffset) v

/-- `VertexIter::setColorRGBA` (header line 373): writes the bytes of the value at `mPtr + mColorRGBAOffset`. -/
def VertexIter.setColorRGBA (it : VertexIterState) (mem : Mem) (v : List Nat) : Mem :=
  writeBytes mem (it.mPtr + it.mColorRGBAOffset) v

/-- `VertexIter::setTexCoord2d0/1/2` and `setTexCoord3d0/1/2` (header lines
375-385): both dimensionalities of unit `u` write at `mPtr + mTexCoordOffset[u]`;
they differ only in how many bytes the assigned value occupies. -/
def VertexIter.setTexCoord (it : VertexIterState) (u : Nat) (mem : Mem) (v : List Nat) : Mem :=
  writeBytes mem (it.mPtr + it.mTexCoordOffset.getD u 0) v

/-- `VertexIter::setCustomFloat` (header line 387): writes the bytes of the value at `mPtr + mObj->mCustomOffsets[index]`. -/
def VertexIter.setCustomFloat (it : VertexIterState) (index : Nat) (mem : Mem) (v : List Nat) : Mem :=
  writeBytes mem (it.mPtr + it.mCustomOffsets.getD index 0) v

/-- `VertexIter::setCustomVec2f` (header line 389): writes the bytes of the value at `mPtr + mObj->mCustomOffsets[index]`. -/
def VertexIter.setCustomVec2f (it : VertexIterState) (index : Nat) (mem : Mem) (v : List Nat) : Mem :=
  writeBytes mem (it.mPtr + it.mCustomOffsets.getD index 0) v

/-- `VertexIter::setCustomVec3f` (header line 391): writes the bytes of the value at `mPtr + mObj->mCustomOffsets[index]`. -/
def VertexIter.setCustomVec3f (it : VertexIterState) (index : Nat) (mem : Mem) (v : List Nat) : Mem :=
  writeBytes mem (it.mPtr + it.mCustomOffsets.getD index 0) v

/-- `VertexIter::setCustomVec4f` (header line 393): writes the bytes of the value at `mPtr + mObj->mCustomOffsets[index]`. -/
def VertexIter.setCustomVec4f (it : VertexIterState) (index : Nat) (mem : Mem) (v : List Nat) : Mem :=
  writeBytes mem (it.mPtr + it.mCustomOffsets.getD index 0) v

end VboMesh

/-- The concrete failure types derived from `VboExc` that the header declares
(src/include/cinder/gl/Vbo.h lines 446-459): `VboInvalidTargetExc`,
`VboFailedMapExc` and `VboFailedUnmapExc`. -/
inductive VboExcKind where
  | vboInvalidTargetExc
  | vboFailedMapExc
  | vboFailedUnmapExc
deriving DecidableEq, Repr, Fintype

/-- The `what()` message of each concrete failure type (header lines 448, 453, 458). -/
def VboExcKind.what : VboExcKind → String
  | .vboInvalidTargetExc => "OpenGL Vbo exception: Invalid Target"
  | .vboFailedMapExc => "OpenGL Vbo exception: Map failure"
  | .vboFailedUnmapExc => "OpenGL Vbo exception: Unmap failure"

/-- The `what()` message of the base class `VboExc` (header line 443). -/
def vboExcBaseWhat : String := "OpenGL Vbo exception"

namespace VboMesh

/-- The scenario descriptor of the spec: `setDynamicPositions(); setDynamicNormals();
addDynamicCustomVec2f()` applied to a default-constructed `Layout`. -/
def layoutScenario : Option Layout :=
  (Layout.init.setDynamicPositions).bind (fun l => l.setDynamicNormals)
    |>.map Layout.addDynamicCustomVec2f

/-- A descriptor whose 22 dynamic custom vec3 attributes sum to a dynamic
stride of 264 bytes, larger than 255. -/
def layoutC3 : Layout := Layout.addDynamicCustomVec3f^[22] Layout.init

/-- A descriptor declaring only dynamic positions (dynamic stride 12). -/
def layoutDynPositions : Layout := (Layout.init.setDynamicPositions).getD Layout.init

/-- A concrete cursor state used to instantiate cursor theorems: mapped base 40,
three 12-byte vertices, pointer at the base. -/
def itW : VertexIterState :=
  { mPtr := 40
    mData := 40
    mDataEnd := 76
    mPositionOffset := 0
    mNormalOffset := 12
    mColorRGBOffset := 0
    mColorRGBAOffset := 0
    mTexCoordOffset := [24, 0, 0, 0]
    mCustomOffsets := []
    mStride := 12 }

theorem getElem?_isSome_iff (l : List Nat) (n : Nat) : l[n]?.isSome = true ↔ n < l.length := by
  cases Nat.lt_or_ge n l.length with
  | inl h => simp [List.getElem?_eq_getElem h, h]
  | inr h => simp [List.getElem?_eq_none h, Nat.not_lt.mpr h]

theorem range_map_getD (v : List Nat) :
    (List.range v.length).map (fun i => v.getD i 0) = v := by
  induction v with
  | nil => simp
  | cons x xs ih =>
    rw [List.length_cons, List.range_succ_eq_map, List.map_cons, List.map_map]
    simp only [Function.comp_def, Nat.succ_eq_add_one, List.getD_cons_zero, List.getD_cons_succ]
    rw [ih]

theorem readBytes_writeBytes (mem : Mem) (a : Nat) (v : List Nat) :
    readBytes (writeBytes mem a v) a v.length = v := by
  have h1 : readBytes (writeBytes mem a v) a v.length
      = (List.range v.length).map (fun i => v.getD i 0) := by
    apply List.map_congr_left
    intro i hi
    rw [List.mem_range] at hi
    show writeBytes mem a v (a + i) = v.getD i 0
    unfold writeBytes
    rw [if_pos ⟨Nat.le_add_right a i, by omega⟩, Nat.add_sub_cancel_left]
  rw [h1, range_map_getD]

theorem iterate_inc (it : VertexIterState) (k : Nat) :
    VertexIter.inc^[k] it = { it with mPtr := it.mPtr + k * it.mStride } := by
  induction k with
  | zero => simp
  | succ n ih =>
    rw [Function.iterate_succ_apply', ih]
    simp [VertexIter.inc, VertexIterState.mk.injEq, Nat.succ_mul, Nat.add_assoc]

theorem attrSet_some (l : Layout) (i v : Nat) (h : i < l.mAttributes.length) :
    l.attrSet i v = some { l with mAttributes := l.mAttributes.set i v } := by
  unfold Layout.attrSet
  rw [if_pos h]

theorem attrSet_pair_spec (l : Layout) (i j v : Nat) (hi : i < l.mAttributes.length)
    (hj : j < l.mAttributes.length) (hij : i ≠ j) :
    ∃ l2, ((l.attrSet i v).bind fun x => x.attrSet j NONE) = some l2 ∧
      l2.attrGet i = some v ∧ l2.attrGet j = some NONE ∧
      (∀ k, k ≠ i → k ≠ j → l2.attrGet k = l.attrGet k) ∧
      l2.mCustomDynamic = l.mCustomDynamic ∧ l2.mCustomStatic = l.mCustomStatic := by
  refine ⟨{ l with mAttributes := (l.mAttributes.set i v).set j NONE }, ?_, ?_, ?_, ?_, rfl, rfl⟩
  · rw [attrSet_some l i v hi]
    simp only [Option.some_bind]
    exact attrSet_some _ j NONE (by simpa using hj)
  · unfold Layout.attrGet
    show ((l.mAttributes.set i v).set j NONE)[i]? = some v
    rw [List.getElem?_set_ne (Ne.symm hij), List.getElem?_set_eq_of_lt v hi]
  · unfold Layout.attrGet
    exact List.getElem?_set_eq_of_lt _ (by simpa using hj)
  · intro k hki hkj
    unfold Layout.attrGet
    show ((l.mAttributes.set i v).set j NONE)[k]? = l.mAttributes[k]?
    rw [List.getElem?_set_ne (fun h => hkj h.symm), List.getElem?_set_ne (fun h => hki h.symm)]

theorem attrSet_customs (l : Layout) (i v : Nat) (l2 : Layout)
    (h : l.attrSet i v = some l2) :
    l2.mCustomDynamic = l.mCustomDynamic ∧ l2.mCustomStatic = l.mCustomStatic := by
  unfold Layout.attrSet at h
  split at h
  · cases h
    exact ⟨rfl, rfl⟩
  · cases h

theorem pairSet_customs (l l2 : Layout) (i j v : Nat)
    (h : ((l.attrSet i v).bind fun x => x.attrSet j NONE) = some l2) :
    l2.mCustomDynamic = l.mCustomDynamic ∧ l2.mCustomStatic = l.mCustomStatic := by
  rcases Option.bind_eq_some.mp h with ⟨x, hx, hx2⟩
  have h1 := attrSet_customs l i v x hx
  have h2 := attrSet_customs x j NONE l2 hx2
  exact ⟨h2.1.trans h1.1, h2.2.trans h1.2⟩

theorem offsetsOf_getD (sizes : List Nat) (i : Nat) (h : i < sizes.length) :
    (offsetsOf sizes).getD i 0 = (sizes.take i).sum := by
  unfold offsetsOf
  rw [List.getD_eq_getElem?_getD, List.getElem?_map]
  simp [List.getElem?_range, h]

theorem length_offsetsOf (sizes : List Nat) : (offsetsOf sizes).length = sizes.length := by
  simp [offsetsOf]

end VboMesh

namespace VboMesh

/-- C10: for every cursor whose cached stride is positive and whose current
pointer starts at the mapped base, each application of operator++ increases
getIndex() by exactly one: after n advances getIndex() returns n. -/
theorem c10_getIndex_counts_advances (it : VertexIterState) (n : Nat)
    (h0 : it.mPtr = it.mData) (hs : 0 < it.mStride) :
    VertexIter.getIndex (VertexIter.inc^[n] it) = n := by
  rw [iterate_inc, h0]
  show (it.mData + n * it.mStride - it.mData) / it.mStride = n
  rw [Nat.add_sub_cancel_left]
  exact Nat.mul_div_cancel n hs

/-- Witness for C10 at a concrete cursor (stride 12, pointer at base) and n = 3. -/
theorem c10_getIndex_counts_advances_witness :
    itW.mPtr = itW.mData ∧ 0 < itW.mStride ∧ VertexIter.getIndex (VertexIter.inc^[3] itW) = 3 :=
  ⟨rfl, by decide, c10_getIndex_counts_advances itW 3 rfl (by decide)⟩

/-- C9: isDefaults() examines only the fixed slot array: replacing the custom
lists never changes its result, an all-NONE slot array yields true, and the
layout reached from the default constructor by addDynamicCustomVec2f() — whose
custom dynamic list is nonempty — is still classified as unspecified. -/
theorem c9_isDefaults_ignores_custom_lists (l : Layout) (cd cs : List (CustomAttr × Nat)) :
    Layout.isDefaults { l with mCustomDynamic := cd, mCustomStatic := cs } = l.isDefaults ∧
    ((∀ a, a < ATTR_TOTAL → l.mAttributes.getD a NONE = NONE) → l.isDefaults = true) ∧
    Layout.isDefaults Layout.init.addDynamicCustomVec2f = true ∧
    (Layout.init.addDynamicCustomVec2f).mCustomDynamic.length = 1 := by
  refine ⟨rfl, ?_, by decide, by decide⟩
  intro h
  unfold Layout.isDefaults
  rw [List.all_eq_true]
  intro x hx
  rw [List.mem_range] at hx
  rw [beq_iff_eq]
  exact h x hx

/-- Witness for C9: the default-constructed layout has every slot NONE and is
reported as defaults. -/
theorem c9_isDefaults_ignores_custom_lists_witness : Layout.init.isDefaults = true :=
  (c9_isDefaults_ignores_custom_lists Layout.init [] []).2.1 (by decide)

/-- C3, the code evaluated at the failing input: a layout of 22 dynamic custom
vec3 attributes resolves to dynamic stride 264, but the cursor caches the
stride in the 8-bit mStride member (header line 432), so the cached stride of a
fresh cursor is 264 % 256 = 8 and operator++ moves the pointer forward by 8
bytes instead of 264. -/
theorem c3_stride_truncated_at_failing_input :
    dynamicStride layoutC3 = 264 ∧
    (mkMeshObj 4 0 layoutC3).mDynamicStride = 264 ∧
    (VertexIter.fresh (mkMeshObj 4 0 layoutC3) 0).mStride = 8 ∧
    (VertexIter.inc (VertexIter.fresh (mkMeshObj 4 0 layoutC3) 0)).mPtr = 8 := by
  refine ⟨by decide, by decide, by decide, by decide⟩

/-- C4 counterexample: for a cursor over a zero-vertex dynamic region (mapped
bounds with mData = mDataEnd) isDone() returns false, not true: its truth value
means "a valid current vertex remains", so it does not report done there. -/
theorem c4_zero_vertex_isDone_false :
    (VertexIter.fresh (mkMeshObj 0 0 layoutDynPositions) 0).mData
      = (VertexIter.fresh (mkMeshObj 0 0 layoutDynPositions) 0).mDataEnd ∧
    VertexIter.isDone (VertexIter.fresh (mkMeshObj 0 0 layoutDynPositions) 0) = false :=
  ⟨by decide, by decide⟩

/-- C4 amended: isDone() compares the current pointer against the mapped end
bound and returns true exactly while a valid current vertex remains (mPtr <
mDataEnd): after k advances over an n-vertex region it is true iff k < n, and
over a zero-vertex region it returns false immediately, before any advance. -/
theorem c4_isDone_compares_end_bound (it : VertexIterState) (mesh : MeshObj) (base k : Nat)
    (h1 : 0 < mesh.mDynamicStride) (h2 : mesh.mDynamicStride < 256) :
    (VertexIter.isDone it = true ↔ it.mPtr < it.mDataEnd) ∧
    (VertexIter.isDone (VertexIter.inc^[k] (VertexIter.fresh mesh base)) = true
      ↔ k < mesh.mNumVertices) ∧
    (mesh.mNumVertices = 0 → VertexIter.isDone (VertexIter.fresh mesh base) = false) := by
  refine ⟨by simp [VertexIter.isDone], ?_, ?_⟩
  · rw [iterate_inc]
    show (decide (base + k * (mesh.mDynamicStride % 256)
        < base + mesh.mNumVertices * mesh.mDynamicStride) = true) ↔ k < mesh.mNumVertices
    rw [decide_eq_true_eq, Nat.mod_eq_of_lt h2, Nat.add_lt_add_iff_left,
      Nat.mul_lt_mul_right h1]
  · intro h0
    unfold VertexIter.isDone VertexIter.fresh
    simp [h0]

/-- Witness for the amended C4 statement at a four-vertex mesh with dynamic
positions (stride 12) and k = 2 advances. -/
theorem c4_isDone_compares_end_bound_witness :
    0 < (mkMeshObj 4 0 layoutDynPositions).mDynamicStride ∧
    (mkMeshObj 4 0 layoutDynPositions).mDynamicStride < 256 ∧
    (VertexIter.isDone (VertexIter.inc^[2] (VertexIter.fresh (mkMeshObj 4 0 layoutDynPositions) 0)) = true
      ↔ 2 < (mkMeshObj 4 0 layoutDynPositions).mNumVertices) :=
  ⟨by decide, by decide,
    (c4_isDone_compares_end_bound itW (mkMeshObj 4 0 layoutDynPositions) 0 2
      (by decide) (by decide)).2.1⟩

end VboMesh

/-- C6 counterexample: the exception hierarchy of the header (Vbo.h lines
441-459) declares exactly three concrete failure kinds derived from VboExc —
InvalidTarget, MapFailure and UnmapFailure — not four: no LayoutMismatch
failure type exists. -/
theorem c6_three_exception_kinds_not_four :
    Fintype.card VboExcKind = 3 ∧ (Fintype.card VboExcKind == 4) = false :=
  ⟨by decide, by decide⟩

/-- C6 amended: the system distinguishes exactly three error kinds, each
surfaced as a distinct raised failure type derived from the base VboExc, with
pairwise distinct diagnostic messages that also differ from the base message:
InvalidTarget, MapFailure and UnmapFailure. -/
theorem c6_error_kinds_are_three_distinct :
    Fintype.card VboExcKind = 3 ∧
    (VboExcKind.what .vboInvalidTargetExc == VboExcKind.what .vboFailedMapExc) = false ∧
    (VboExcKind.what .vboInvalidTargetExc == VboExcKind.what .vboFailedUnmapExc) = false ∧
    (VboExcKind.what .vboFailedMapExc == VboExcKind.what .vboFailedUnmapExc) = false ∧
    (VboExcKind.what .vboInvalidTargetExc == vboExcBaseWhat) = false ∧
    (VboExcKind.what .vboFailedMapExc == vboExcBaseWhat) = false ∧
    (VboExcKind.what .vboFailedUnmapExc == vboExcBaseWhat) = false :=
  ⟨by decide, by decide, by decide, by decide, by decide, by decide, by decide⟩

namespace VboMesh

/-- C7: every descriptor operation leaves the existing entries of both custom
lists in place (a descriptor only grows), and each custom appender appends
exactly one declaration of its scalar type at the end of the dynamic custom
list while leaving the static custom list and the slot array unchanged. -/
theorem c7_descriptor_only_grows :
    (∀ (op : LayoutOp) (l l2 : Layout), applyOp op l = some l2 →
      (∃ t, l2.mCustomDynamic = l.mCustomDynamic ++ t) ∧
      (∃ t, l2.mCustomStatic = l.mCustomStatic ++ t)) ∧
    (∀ l : Layout,
      (l.addDynamicCustomFloat.mCustomDynamic
          = l.mCustomDynamic ++ [(CustomAttr.CUSTOM_ATTR_FLOAT, 0)] ∧
        l.addDynamicCustomFloat.mCustomStatic = l.mCustomStatic ∧
        l.addDynamicCustomFloat.mAttributes = l.mAttributes) ∧
      (l.addDynamicCustomVec2f.mCustomDynamic
          = l.mCustomDynamic ++ [(CustomAttr.CUSTOM_ATTR_FLOAT2, 0)] ∧
        l.addDynamicCustomVec2f.mCustomStatic = l.mCustomStatic ∧
        l.addDynamicCustomVec2f.mAttributes = l.mAttributes) ∧
      (l.addDynamicCustomVec3f.mCustomDynamic
          = l.mCustomDynamic ++ [(CustomAttr.CUSTOM_ATTR_FLOAT3, 0)] ∧
        l.addDynamicCustomVec3f.mCustomStatic = l.mCustomStatic ∧
        l.addDynamicCustomVec3f.mAttributes = l.mAttributes) ∧
      (l.addDynamicCustomVec4f.mCustomDynamic
          = l.mCustomDynamic ++ [(CustomAttr.CUSTOM_ATTR_FLOAT4, 0)] ∧
        l.addDynamicCustomVec4f.mCustomStatic = l.mCustomStatic ∧
        l.addDynamicCustomVec4f.mAttributes = l.mAttributes)) := by
  constructor
  · intro op l l2 h
    have single : ∀ (i v : Nat), l.attrSet i v = some l2 →
        (∃ t, l2.mCustomDynamic = l.mCustomDynamic ++ t) ∧
        (∃ t, l2.mCustomStatic = l.mCustomStatic ++ t) := by
      intro i v hh
      have hc := attrSet_customs l i v l2 hh
      exact ⟨⟨[], by simp [hc.1]⟩, ⟨[], by simp [hc.2]⟩⟩
    have pair : ∀ (i j v : Nat),
        ((l.attrSet i v).bind fun x => x.attrSet j NONE) = some l2 →
        (∃ t, l2.mCustomDynamic = l.mCustomDynamic ++ t) ∧
        (∃ t, l2.mCustomStatic = l.mCustomStatic ++ t) := by
      intro i j v hh
      have hc := pairSet_customs l l2 i j v hh
      exact ⟨⟨[], by simp [hc.1]⟩, ⟨[], by simp [hc.2]⟩⟩
    cases op with
    | staticNormals => exact single _ _ h
    | dynamicNormals => exact single _ _ h
    | staticColorsRGB => exact pair _ _ _ h
    | dynamicColorsRGB => exact pair _ _ _ h
    | staticColorsRGBA => exact pair _ _ _ h
    | dynamicColorsRGBA => exact pair _ _ _ h
    | staticTexCoords2d u => exact pair _ _ _ h
    | dynamicTexCoords2d u => exact pair _ _ _ h
    | staticTexCoords3d u => exact pair _ _ _ h
    | dynamicTexCoords3d u => exact pair _ _ _ h
    | staticIndices => exact single _ _ h
    | dynamicIndices => exact single _ _ h
    | staticPositions => exact single _ _ h
    | dynamicPositions => exact single _ _ h
    | dynCustomFloat =>
      cases h
      exact ⟨⟨[(CustomAttr.CUSTOM_ATTR_FLOAT, 0)], rfl⟩, ⟨[], by rw [List.append_nil]; rfl⟩⟩
    | dynCustomVec2f =>
      cases h
      exact ⟨⟨[(CustomAttr.CUSTOM_ATTR_FLOAT2, 0)], rfl⟩, ⟨[], by rw [List.append_nil]; rfl⟩⟩
    | dynCustomVec3f =>
      cases h
      exact ⟨⟨[(CustomAttr.CUSTOM_ATTR_FLOAT3, 0)], rfl⟩, ⟨[], by rw [List.append_nil]; rfl⟩⟩
    | dynCustomVec4f =>
      cases h
      exact ⟨⟨[(CustomAttr.CUSTOM_ATTR_FLOAT4, 0)], rfl⟩, ⟨[], by rw [List.append_nil]; rfl⟩⟩
  · intro l
    exact ⟨⟨rfl, rfl, rfl⟩, ⟨rfl, rfl, rfl⟩, ⟨rfl, rfl, rfl⟩, ⟨rfl, rfl, rfl⟩⟩

/-- Witness for C7: appending a custom vec2 to the default descriptor extends
the dynamic custom list without removing anything. -/
theorem c7_descriptor_only_grows_witness :
    applyOp LayoutOp.dynCustomVec2f Layout.init = some Layout.init.addDynamicCustomVec2f ∧
    (∃ t, Layout.init.addDynamicCustomVec2f.mCustomDynamic = Layout.init.mCustomDynamic ++ t) :=
  ⟨rfl, (c7_descriptor_only_grows.1 LayoutOp.dynCustomVec2f Layout.init
    Layout.init.addDynamicCustomVec2f rfl).1⟩

/-- C5: for every descriptor state with its full slot array and every unit
u ≤ ATTR_MAX_TEXTURE_UNIT, the RGBA color setters set the RGBA slot and clear
the RGB slot to NONE (and symmetrically for the RGB setters), and the 2d
texcoord setters of unit u set the 2d slot of unit u and clear the 3d slot of
the same unit (and symmetrically for the 3d setters); every other slot of the
attribute array and both custom lists are left unchanged. -/
theorem c5_color_texcoord_mutual_exclusion (l : Layout) (u : Nat)
    (hlen : l.mAttributes.length = ATTR_TOTAL) (hu : u ≤ ATTR_MAX_TEXTURE_UNIT) :
    (∃ l2, l.setStaticColorsRGBA = some l2 ∧ l2.attrGet ATTR_COLORS_RGBA = some STATIC ∧
      l2.attrGet ATTR_COLORS_RGB = some NONE ∧
      (∀ k, k ≠ ATTR_COLORS_RGBA → k ≠ ATTR_COLORS_RGB → l2.attrGet k = l.attrGet k) ∧
      l2.mCustomDynamic = l.mCustomDynamic ∧ l2.mCustomStatic = l.mCustomStatic) ∧
    (∃ l2, l.setDynamicColorsRGBA = some l2 ∧ l2.attrGet ATTR_COLORS_RGBA = some DYNAMIC ∧
      l2.attrGet ATTR_COLORS_RGB = some NONE ∧
      (∀ k, k ≠ ATTR_COLORS_RGBA → k ≠ ATTR_COLORS_RGB → l2.attrGet k = l.attrGet k) ∧
      l2.mCustomDynamic = l.mCustomDynamic ∧ l2.mCustomStatic = l.mCustomStatic) ∧
    (∃ l2, l.setStaticColorsRGB = some l2 ∧ l2.attrGet ATTR_COLORS_RGB = some STATIC ∧
      l2.attrGet ATTR_COLORS_RGBA = some NONE ∧
      (∀ k, k ≠ ATTR_COLORS_RGB → k ≠ ATTR_COLORS_RGBA → l2.attrGet k = l.attrGet k) ∧
      l2.mCustomDynamic = l.mCustomDynamic ∧ l2.mCustomStatic = l.mCustomStatic) ∧
    (∃ l2, l.setDynamicColorsRGB = some l2 ∧ l2.attrGet ATTR_COLORS_RGB = some DYNAMIC ∧
      l2.attrGet ATTR_COLORS_RGBA = some NONE ∧
      (∀ k, k ≠ ATTR_COLORS_RGB → k ≠ ATTR_COLORS_RGBA → l2.attrGet k = l.attrGet k) ∧
      l2.mCustomDynamic = l.mCustomDynamic ∧ l2.mCustomStatic = l.mCustomStatic) ∧
    (∃ l2, l.setStaticTexCoords2d u = some l2 ∧
      l2.attrGet (ATTR_TEXCOORDS2D_0 + u) = some STATIC ∧
      l2.attrGet (ATTR_TEXCOORDS3D_0 + u) = some NONE ∧
      (∀ k, k ≠ ATTR_TEXCOORDS2D_0 + u → k ≠ ATTR_TEXCOORDS3D_0 + u →
        l2.attrGet k = l.attrGet k) ∧
      l2.mCustomDynamic = l.mCustomDynamic ∧ l2.mCustomStatic = l.mCustomStatic) ∧
    (∃ l2, l.setDynamicTexCoords2d u = some l2 ∧
      l2.attrGet (ATTR_TEXCOORDS2D_0 + u) = some DYNAMIC ∧
      l2.attrGet (ATTR_TEXCOORDS3D_0 + u) = some NONE ∧
      (∀ k, k ≠ ATTR_TEXCOORDS2D_0 + u → k ≠ ATTR_TEXCOORDS3D_0 + u →
        l2.attrGet k = l.attrGet k) ∧
      l2.mCustomDynamic = l.mCustomDynamic ∧ l2.mCustomStatic = l.mCustomStatic) ∧
    (∃ l2, l.setStaticTexCoords3d u = some l2 ∧
      l2.attrGet (ATTR_TEXCOORDS3D_0 + u) = some STATIC ∧
      l2.attrGet (ATTR_TEXCOORDS2D_0 + u) = some NONE ∧
      (∀ k, k ≠ ATTR_TEXCOORDS3D_0 + u → k ≠ ATTR_TEXCOORDS2D_0 + u →
        l2.attrGet k = l.attrGet k) ∧
      l2.mCustomDynamic = l.mCustomDynamic ∧ l2.mCustomStatic = l.mCustomStatic) ∧
    (∃ l2, l.setDynamicTexCoords3d u = some l2 ∧
      l2.attrGet (ATTR_TEXCOORDS3D_0 + u) = some DYNAMIC ∧
      l2.attrGet (ATTR_TEXCOORDS2D_0 + u) = some NONE ∧
      (∀ k, k ≠ ATTR_TEXCOORDS3D_0 + u → k ≠ ATTR_TEXCOORDS2D_0 + u →
        l2.attrGet k = l.attrGet k) ∧
      l2.mCustomDynamic = l.mCustomDynamic ∧ l2.mCustomStatic = l.mCustomStatic) := by
  have hl : l.mAttributes.length = 13 := hlen
  have hu3 : u ≤ 3 := hu
  refine ⟨?_, ?_, ?_, ?_, ?_, ?_, ?_, ?_⟩
  · exact attrSet_pair_spec l ATTR_COLORS_RGBA ATTR_COLORS_RGB STATIC
      (by show 4 < l.mAttributes.length; omega) (by show 3 < l.mAttributes.length; omega)
      (by decide)
  · exact attrSet_pair_spec l ATTR_COLORS_RGBA ATTR_COLORS_RGB DYNAMIC
      (by show 4 < l.mAttributes.length; omega) (by show 3 < l.mAttributes.length; omega)
      (by decide)
  · exact attrSet_pair_spec l ATTR_COLORS_RGB ATTR_COLORS_RGBA STATIC
      (by show 3 < l.mAttributes.length; omega) (by show 4 < l.mAttributes.length; omega)
      (by decide)
  · exact attrSet_pair_spec l ATTR_COLORS_RGB ATTR_COLORS_RGBA DYNAMIC
      (by show 3 < l.mAttributes.length; omega) (by show 4 < l.mAttributes.length; omega)
      (by decide)
  · exact attrSet_pair_spec l (ATTR_TEXCOORDS2D_0 + u) (ATTR_TEXCOORDS3D_0 + u) STATIC
      (by show 5 + u < l.mAttributes.length; omega)
      (by show 9 + u < l.mAttributes.length; omega)
      (by show 5 + u ≠ 9 + u; omega)
  · exact attrSet_pair_spec l (ATTR_TEXCOORDS2D_0 + u) (ATTR_TEXCOORDS3D_0 + u) DYNAMIC
      (by show 5 + u < l.mAttributes.length; omega)
      (by show 9 + u < l.mAttributes.length; omega)
      (by show 5 + u ≠ 9 + u; omega)
  · exact attrSet_pair_spec l (ATTR_TEXCOORDS3D_0 + u) (ATTR_TEXCOORDS2D_0 + u) STATIC
      (by show 9 + u < l.mAttributes.length; omega)
      (by show 5 + u < l.mAttributes.length; omega)
      (by show 9 + u ≠ 5 + u; omega)
  · exact attrSet_pair_spec l (ATTR_TEXCOORDS3D_0 + u) (ATTR_TEXCOORDS2D_0 + u) DYNAMIC
      (by show 9 + u < l.mAttributes.length; omega)
      (by show 5 + u < l.mAttributes.length; omega)
      (by show 9 + u ≠ 5 + u; omega)

/-- Witness for C5 at the default-constructed descriptor and unit 0. -/
theorem c5_color_texcoord_mutual_exclusion_witness :
    Layout.init.mAttributes.length = ATTR_TOTAL ∧
    (∃ l2, Layout.init.setStaticColorsRGBA = some l2 ∧
      l2.attrGet ATTR_COLORS_RGBA = some STATIC ∧ l2.attrGet ATTR_COLORS_RGB = some NONE) :=
  ⟨by decide,
    ((c5_color_texcoord_mutual_exclusion Layout.init 0 (by decide) (by decide)).1).elim
      fun l2 h => ⟨l2, h.1, h.2.1, h.2.2.1⟩⟩

end VboMesh

namespace VboMesh

/-- C8: for the texture-coordinate queries and mutators invoked with
unit ≤ ATTR_MAX_TEXTURE_UNIT (= 3), every read and write of the attribute array
is in bounds, so the none branch of the Option-returning index is unreachable;
for unit ≥ 4 the 3d-slot accesses are out of bounds (index ≥ ATTR_TOTAL) and
the 2d-slot index lands at or beyond the start of the 3d block, i.e. in a
the slot of a different unit. -/
theorem c8_texcoord_unit_access_bounds (l : Layout) (u : Nat)
    (hlen : l.mAttributes.length = ATTR_TOTAL) :
    (u ≤ ATTR_MAX_TEXTURE_UNIT →
      (l.hasTexCoords2d u).isSome = true ∧ (l.hasTexCoords3d u).isSome = true ∧
      (l.hasStaticTexCoords2d u).isSome = true ∧ (l.hasDynamicTexCoords2d u).isSome = true ∧
      (l.hasStaticTexCoords3d u).isSome = true ∧ (l.hasDynamicTexCoords3d u).isSome = true ∧
      (l.hasTexCoords u).isSome = true ∧
      (l.setStaticTexCoords2d u).isSome = true ∧ (l.setDynamicTexCoords2d u).isSome = true ∧
      (l.setStaticTexCoords3d u).isSome = true ∧ (l.setDynamicTexCoords3d u).isSome = true) ∧
    (ATTR_MAX_TEXTURE_UNIT + 1 ≤ u →
      l.hasStaticTexCoords3d u = none ∧ l.hasDynamicTexCoords3d u = none ∧
      l.hasTexCoords3d u = none ∧
      l.setStaticTexCoords2d u = none ∧ l.setDynamicTexCoords2d u = none ∧
      l.setStaticTexCoords3d u = none ∧ l.setDynamicTexCoords3d u = none ∧
      ATTR_TEXCOORDS3D_0 ≤ ATTR_TEXCOORDS2D_0 + u) := by
  have hl : l.mAttributes.length = 13 := hlen
  constructor
  · intro hu
    have hu3 : u ≤ 3 := hu
    have h2d : ATTR_TEXCOORDS2D_0 + u < l.mAttributes.length := by
      show 5 + u < l.mAttributes.length
      omega
    have h3d : ATTR_TEXCOORDS3D_0 + u < l.mAttributes.length := by
      show 9 + u < l.mAttributes.length
      omega
    rcases Option.isSome_iff_exists.mp ((getElem?_isSome_iff _ _).mpr h2d) with ⟨a2, ha2⟩
    rcases Option.isSome_iff_exists.mp ((getElem?_isSome_iff _ _).mpr h3d) with ⟨a3, ha3⟩
    have hga2 : l.attrGet (ATTR_TEXCOORDS2D_0 + u) = some a2 := ha2
    have hga3 : l.attrGet (ATTR_TEXCOORDS3D_0 + u) = some a3 := ha3
    have hs2 : (l.hasStaticTexCoords2d u).isSome = true := by
      unfold Layout.hasStaticTexCoords2d
      rw [hga2]
      rfl
    have hd2 : (l.hasDynamicTexCoords2d u).isSome = true := by
      unfold Layout.hasDynamicTexCoords2d
      rw [hga2]
      rfl
    have hs3 : (l.hasStaticTexCoords3d u).isSome = true := by
      unfold Layout.hasStaticTexCoords3d
      rw [hga3]
      rfl
    have hd3 : (l.hasDynamicTexCoords3d u).isSome = true := by
      unfold Layout.hasDynamicTexCoords3d
      rw [hga3]
      rfl
    have ht2 : (l.hasTexCoords2d u).isSome = true := by
      unfold Layout.hasTexCoords2d Layout.hasDynamicTexCoords2d
      rw [hga2]
      show (if (a2 == DYNAMIC) then some true else l.hasStaticTexCoords2d u).isSome = true
      split
      · rfl
      · exact hs2
    have ht3 : (l.hasTexCoords3d u).isSome = true := by
      unfold Layout.hasTexCoords3d Layout.hasDynamicTexCoords3d
      rw [hga3]
      show (if (a3 == DYNAMIC) then some true else l.hasStaticTexCoords3d u).isSome = true
      split
      · rfl
      · exact hs3
    have htc : (l.hasTexCoords u).isSome = true := by
      unfold Layout.hasTexCoords
      rw [hga2]
      show (if (a2 != NONE) then some true
        else (l.attrGet (ATTR_TEXCOORDS3D_0 + u)).map fun b => b != NONE).isSome = true
      split
      · rfl
      · rw [hga3]
        rfl
    have hset : ∀ (i j v : Nat), i < l.mAttributes.length → j < l.mAttributes.length →
        ((l.attrSet i v).bind fun x => x.attrSet j NONE).isSome = true := by
      intro i j v hi hj
      rw [attrSet_some l i v hi]
      simp only [Option.some_bind]
      rw [attrSet_some _ j NONE (by show j < (l.mAttributes.set i v).length; simpa using hj)]
      rfl
    exact ⟨ht2, ht3, hs2, hd2, hs3, hd3, htc, hset _ _ _ h2d h3d, hset _ _ _ h2d h3d,
      hset _ _ _ h3d h2d, hset _ _ _ h3d h2d⟩
  · intro hu
    have hu4 : 4 ≤ u := hu
    have h3dOOB : l.mAttributes.length ≤ ATTR_TEXCOORDS3D_0 + u := by
      show l.mAttributes.length ≤ 9 + u
      omega
    have hget3 : l.attrGet (ATTR_TEXCOORDS3D_0 + u) = none := by
      unfold Layout.attrGet
      exact List.getElem?_eq_none h3dOOB
    have hs3 : l.hasStaticTexCoords3d u = none := by
      unfold Layout.hasStaticTexCoords3d
      rw [hget3]
      rfl
    have hd3 : l.hasDynamicTexCoords3d u = none := by
      unfold Layout.hasDynamicTexCoords3d
      rw [hget3]
      rfl
    have ht3 : l.hasTexCoords3d u = none := by
      unfold Layout.hasTexCoords3d
      rw [hd3]
      rfl
    have hsetj : ∀ v : Nat, ((l.attrSet (ATTR_TEXCOORDS2D_0 + u) v).bind
        fun x => x.attrSet (ATTR_TEXCOORDS3D_0 + u) NONE) = none := by
      intro v
      by_cases h : ATTR_TEXCOORDS2D_0 + u < l.mAttributes.length
      · rw [attrSet_some l _ _ h]
        simp only [Option.some_bind]
        unfold Layout.attrSet
        rw [if_neg (by
          show ¬(ATTR_TEXCOORDS3D_0 + u
            < (l.mAttributes.set (ATTR_TEXCOORDS2D_0 + u) v).length)
          simp only [List.length_set]
          show ¬(9 + u < l.mAttributes.length)
          omega)]
      · unfold Layout.attrSet
        rw [if_neg h]
        rfl
    have hseti : ∀ v : Nat, ((l.attrSet (ATTR_TEXCOORDS3D_0 + u) v).bind
        fun x => x.attrSet (ATTR_TEXCOORDS2D_0 + u) NONE) = none := by
      intro v
      unfold Layout.attrSet
      rw [if_neg (by show ¬(9 + u < l.mAttributes.length); omega)]
      rfl
    exact ⟨hs3, hd3, ht3, hsetj STATIC, hsetj DYNAMIC, hseti STATIC, hseti DYNAMIC,
      by show 9 ≤ 5 + u; omega⟩

/-- Witness for C8: the default descriptor at unit 0 (all accesses succeed) and
at unit 4 (the 3d write is out of bounds). -/
theorem c8_texcoord_unit_access_bounds_witness :
    Layout.init.mAttributes.length = ATTR_TOTAL ∧
    (Layout.init.hasTexCoords2d 0).isSome = true ∧
    Layout.init.setStaticTexCoords3d 4 = none :=
  ⟨by decide,
    ((c8_texcoord_unit_access_bounds Layout.init 0 (by decide)).1 (by decide)).1,
    ((c8_texcoord_unit_access_bounds Layout.init 4 (by decide)).2 (by decide)).2.2.2.2.2.1⟩

end VboMesh

namespace VboMesh

/-- C2: the resolved dynamic offsets are cumulative — each offset is the
previous offset plus the size of the previous attribute — the dynamic stride is the
last offset plus the last size (exact sum, no padding), the dynamic record
lists the fixed slots in slot order with the custom dynamic attributes appended
after them in declaration order, and the scenario of the spec
(setDynamicPositions; setDynamicNormals; addDynamicCustomVec2f, vertexCount 1)
resolves to stride 32 with offsets position = 0, normal = 12, custom 0 = 24. -/
theorem c2_dynamic_layout_resolution :
    (∀ (sizes : List Nat) (i : Nat), i + 1 < sizes.length →
      (offsetsOf sizes).getD (i + 1) 0 = (offsetsOf sizes).getD i 0 + sizes.getD i 0) ∧
    (∀ l : Layout, 0 < (dynAttrs l).length →
      dynamicStride l
        = (offsetsOf ((dynAttrs l).map Prod.snd)).getD ((dynAttrs l).length - 1) 0
          + ((dynAttrs l).map Prod.snd).getD ((dynAttrs l).length - 1) 0) ∧
    (∀ l : Layout, (resolveDyn l).map Prod.fst
        = (dynFixedAttrs l).map Prod.fst
          ++ (List.range l.mCustomDynamic.length).map DynAttr.custom) ∧
    (layoutScenario.map dynamicStride = some 32 ∧
      layoutScenario.map (fun l => dynOffset l DynAttr.positions) = some 0 ∧
      layoutScenario.map (fun l => dynOffset l DynAttr.normals) = some 12 ∧
      layoutScenario.map (fun l => dynOffset l (DynAttr.custom 0)) = some 24) := by
  have gen : ∀ (sizes : List Nat), 0 < sizes.length →
      sizes.sum = (offsetsOf sizes).getD (sizes.length - 1) 0
        + sizes.getD (sizes.length - 1) 0 := by
    intro sizes h
    have hlt : sizes.length - 1 < sizes.length := by omega
    have hs := List.sum_take_succ sizes (sizes.length - 1) hlt
    rw [Nat.sub_add_cancel h, List.take_length] at hs
    rw [offsetsOf_getD sizes (sizes.length - 1) hlt, hs]
    congr 1
    simp [List.getD_eq_getElem?_getD, List.getElem?_eq_getElem hlt]
  refine ⟨?_, ?_, ?_, by decide, by decide, by decide, by decide⟩
  · intro sizes i h
    rw [offsetsOf_getD sizes (i + 1) (by omega), offsetsOf_getD sizes i (by omega),
      List.sum_take_succ sizes i (by omega)]
    congr 1
    simp [List.getD_eq_getElem?_getD, List.getElem?_eq_getElem (show i < sizes.length by omega)]
  · intro l hl
    have hlen : ((dynAttrs l).map Prod.snd).length = (dynAttrs l).length :=
      List.length_map _ _
    have h0 : 0 < ((dynAttrs l).map Prod.snd).length := by
      rw [hlen]
      exact hl
    have := gen ((dynAttrs l).map Prod.snd) h0
    rw [hlen] at this
    exact this
  · intro l
    unfold resolveDyn
    rw [List.map_fst_zip _ _ (by simp [length_offsetsOf])]
    unfold dynAttrs
    rw [List.map_append]
    congr 1
    unfold dynCustomAttrs
    rw [List.map_map]
    show l.mCustomDynamic.enum.map (DynAttr.custom ∘ Prod.fst) = _
    rw [← List.map_map, List.enum_map_fst]

/-- Witness for the cumulative-offset property of C2 at the scenario size list
[12, 12, 8] and i = 0. -/
theorem c2_dynamic_layout_resolution_witness :
    0 + 1 < ([12, 12, 8] : List Nat).length ∧
    (offsetsOf [12, 12, 8]).getD 1 0
      = (offsetsOf [12, 12, 8]).getD 0 0 + ([12, 12, 8] : List Nat).getD 0 0 :=
  ⟨by decide, c2_dynamic_layout_resolution.1 [12, 12, 8] 0 (by decide)⟩

/-- C1 counterexample: on a mesh whose resolved dynamic stride is 264 (layout
of 22 dynamic custom vec3 attributes), writing through setCustomVec3f at the
vertex reached by one advance of a fresh cursor and then reading the raw bytes
at base + k * stride + offset(A) with the resolved dynamic stride (k = 1,
offset 0) does not return the written bytes: the uint8_t stride cache makes the
cursor write 12 sevens at byte 8, while the read at byte 264 sees untouched
zero memory.  The same read at the cached (truncated) stride does return the
written bytes. -/
theorem c1_roundtrip_fails_at_resolved_stride :
    dynamicStride layoutC3 = 264 ∧
    (customOffsets layoutC3).getD 0 0 = 0 ∧
    (readBytes
        (VertexIter.setCustomVec3f
          (VertexIter.inc^[1] (VertexIter.fresh (mkMeshObj 4 0 layoutC3) 0)) 0
          ((fun _ => 0) : Mem) (List.replicate 12 7))
        (0 + 1 * dynamicStride layoutC3 + (customOffsets layoutC3).getD 0 0)
        (List.replicate 12 7).length
      == List.replicate 12 7) = false ∧
    readBytes
        (VertexIter.setCustomVec3f
          (VertexIter.inc^[1] (VertexIter.fresh (mkMeshObj 4 0 layoutC3) 0)) 0
          ((fun _ => 0) : Mem) (List.replicate 12 7))
        (0 + 1 * (VertexIter.fresh (mkMeshObj 4 0 layoutC3) 0).mStride
          + (customOffsets layoutC3).getD 0 0)
        (List.replicate 12 7).length
      = List.replicate 12 7 :=
  ⟨by decide, by decide, by decide, by decide⟩

/-- C1 amended: for every mesh whose resolved dynamic stride fits the 8-bit
stride cache of the cursor (stride < 256), writing a value through any Vertex
Cursor setter at the vertex reached by k advances of a fresh cursor, then
reading the raw bytes at base + k * resolvedDynamicStride + offset(A), yields
exactly the written bytes, bit-exact, for every attribute (position, normal,
colorRGB, colorRGBA, texcoord unit u, and custom float/vec2/vec3/vec4 at
index i).  For larger strides the cursor advances by the truncated stride and
the roundtrip at the resolved stride fails (the C3 defect). -/
theorem c1_setter_write_read_roundtrip (mesh : MeshObj) (base k u i : Nat)
    (mem : Mem) (v : List Nat) (hs : mesh.mDynamicStride < 256) :
    readBytes (VertexIter.setPosition (VertexIter.inc^[k] (VertexIter.fresh mesh base)) mem v)
      (base + k * mesh.mDynamicStride + mesh.mPositionOffset) v.length = v ∧
    readBytes (VertexIter.setNormal (VertexIter.inc^[k] (VertexIter.fresh mesh base)) mem v)
      (base + k * mesh.mDynamicStride + mesh.mNormalOffset) v.length = v ∧
    readBytes (VertexIter.setColorRGB (VertexIter.inc^[k] (VertexIter.fresh mesh base)) mem v)
      (base + k * mesh.mDynamicStride + mesh.mColorRGBOffset) v.length = v ∧
    readBytes (VertexIter.setColorRGBA (VertexIter.inc^[k] (VertexIter.fresh mesh base)) mem v)
      (base + k * mesh.mDynamicStride + mesh.mColorRGBAOffset) v.length = v ∧
    readBytes (VertexIter.setTexCoord (VertexIter.inc^[k] (VertexIter.fresh mesh base)) u mem v)
      (base + k * mesh.mDynamicStride + mesh.mTexCoordOffset.getD u 0)
      v.length = v ∧
    readBytes
      (VertexIter.setCustomFloat (VertexIter.inc^[k] (VertexIter.fresh mesh base)) i mem v)
      (base + k * mesh.mDynamicStride + (customOffsets mesh.mLayout).getD i 0)
      v.length = v ∧
    readBytes
      (VertexIter.setCustomVec2f (VertexIter.inc^[k] (VertexIter.fresh mesh base)) i mem v)
      (base + k * mesh.mDynamicStride + (customOffsets mesh.mLayout).getD i 0)
      v.length = v ∧
    readBytes
      (VertexIter.setCustomVec3f (VertexIter.inc^[k] (VertexIter.fresh mesh base)) i mem v)
      (base + k * mesh.mDynamicStride + (customOffsets mesh.mLayout).getD i 0)
      v.length = v ∧
    readBytes
      (VertexIter.setCustomVec4f (VertexIter.inc^[k] (VertexIter.fresh mesh base)) i mem v)
      (base + k * mesh.mDynamicStride + (customOffsets mesh.mLayout).getD i 0)
      v.length = v := by
  have hstride : (VertexIter.fresh mesh base).mStride = mesh.mDynamicStride :=
    Nat.mod_eq_of_lt hs
  rw [iterate_inc, ← hstride]
  refine ⟨?_, ?_, ?_, ?_, ?_, ?_, ?_, ?_, ?_⟩ <;> exact readBytes_writeBytes mem _ v

/-- Witness for the amended C1 at a mesh with dynamic positions (resolved
stride 12 < 256), k = 2 advances, writing 12 bytes of value 7. -/
theorem c1_setter_write_read_roundtrip_witness :
    (mkMeshObj 4 0 layoutDynPositions).mDynamicStride < 256 ∧
    readBytes
        (VertexIter.setPosition
          (VertexIter.inc^[2] (VertexIter.fresh (mkMeshObj 4 0 layoutDynPositions) 0))
          ((fun _ => 0) : Mem) (List.replicate 12 7))
        (0 + 2 * (mkMeshObj 4 0 layoutDynPositions).mDynamicStride
          + (mkMeshObj 4 0 layoutDynPositions).mPositionOffset)
        (List.replicate 12 7).length
      = List.replicate 12 7 :=
  ⟨by decide,
    (c1_setter_write_read_roundtrip (mkMeshObj 4 0 layoutDynPositions) 0 2 0 0
      ((fun _ => 0) : Mem) (List.replicate 12 7) (by decide)).1⟩

end VboMesh
